import Mathlib

/-!
# Stellar-Save: verification of the group rotation state machine

Shallow embedding of the Stellar-Save ROSCA contract
(`src/contracts/stellar-save/src/lib.rs` and the modules it declares).
Principals (Soroban `Address`) are modelled as `Nat`; `u64`/`u32`/`i128`
quantities as `Nat` (no operation in scope can overflow: `current_cycle`
is bounded by `max_members` and only amounts' product is formed).

Only `lib.rs` (the contract surface `get_current_cycle` and the test
suite) is present in the repository source; the bodies of the declared
modules `group`, `status`, `contribution`, `payout`, `error`, `storage`
are absent.  Those are modelled from the spec, as marked on each
definition.  Where the spec's §4.2 contradicts the repository's own test
suite — the tests advance freshly created groups whose status is still
`Forming`, while §4.2 demands `InvalidStatus` unless `Active` — the test
suite (actual repository code) is taken as authoritative; §8 of the
spec agrees with the tests.
-/

namespace StellarSave

/-- Modelled from the spec (§4.1 `status` module, absent from the source
tree): the group lifecycle status enum. -/
inductive Status where
  | Forming
  | Active
  | Completed
  | Cancelled
deriving DecidableEq, Repr

/-- Modelled from the spec (§7 error taxonomy, `error` module absent
from the source tree except for the re-export and the use of
`GroupNotFound` in `lib.rs`): the contract's error variants. -/
inductive StellarSaveError where
  | GroupNotFound
  | InvalidConfiguration
  | InvalidStatus
  | AlreadyComplete
  | AlreadyMember
  | GroupFull
  | NotMember
  | WrongAmount
  | DuplicateContribution
deriving DecidableEq, Repr

/-- Modelled from the spec (§4.1): the status transition table.  True
exactly on the four edges Forming→Active, Forming→Cancelled,
Active→Cancelled, Active→Completed. -/
def canTransition : Status → Status → Bool
  | .Forming, .Active => true
  | .Forming, .Cancelled => true
  | .Active, .Cancelled => true
  | .Active, .Completed => true
  | _, _ => false

/-- Modelled from the spec (§3 `contribution` module, absent from the
source tree): one member's contribution for one cycle, keyed externally
by `(group_id, cycle, member)`. -/
structure ContributionRecord where
  amount : Nat
  timestamp : Nat
  paid : Bool
deriving DecidableEq, Repr

/-- Modelled from the spec (§3 `payout` module, absent from the source
tree): one recipient's payout for one cycle.  The cycle being closed is
kept on the record; `advance_cycle` receives no clock, so no timestamp
field is modelled. -/
structure PayoutRecord where
  recipient : Nat
  amount : Nat
  cycle : Nat
deriving DecidableEq, Repr

/-- The `Group` aggregate (§3 of the spec; module `group` absent from
the source tree, field list fixed by the spec and by the fields the
tests in `lib.rs` read: `current_cycle`, `is_complete`). -/
structure Group where
  id : Nat
  creator : Nat
  contributionAmount : Nat
  cycleDurationSeconds : Nat
  maxMembers : Nat
  createdAt : Nat
  currentCycle : Nat
  status : Status
  members : List Nat
deriving DecidableEq, Repr

namespace Group

/-- Modelled from the spec (§4.2 `new`, module `group` absent from the
source tree): fails with `InvalidConfiguration` if `max_members < 2` or
`contribution_amount == 0` or `cycle_duration_seconds == 0`; otherwise
initializes `current_cycle = 0`, `status = Forming`,
`members = [creator]` (creator auto-joins, a policy the spec allows). -/
def new (id creator contributionAmount cycleDurationSeconds maxMembers createdAt : Nat) :
    Except StellarSaveError Group :=
  if maxMembers < 2 ∨ contributionAmount = 0 ∨ cycleDurationSeconds = 0 then
    .error .InvalidConfiguration
  else
    .ok { id := id, creator := creator, contributionAmount := contributionAmount,
          cycleDurationSeconds := cycleDurationSeconds, maxMembers := maxMembers,
          createdAt := createdAt, currentCycle := 0, status := .Forming,
          members := [creator] }

/-- `is_complete` (§4.2 of the spec; exercised by
`test_get_current_cycle_at_completion` in `lib.rs`):
`current_cycle == max_members`. -/
def isComplete (g : Group) : Bool :=
  g.currentCycle == g.maxMembers

/-- Modelled from the spec (§4.2 `advance_cycle`, module `group` absent
from the source tree): fails with `AlreadyComplete` if
`current_cycle == max_members`; otherwise computes
recipient = `members[current_cycle % members.len()]`,
amount = `contribution_amount * members.len()`, increments
`current_cycle`, and transitions status to `Completed` when the new
cycle equals `max_members`.  The spec's `InvalidStatus unless Active`
guard is omitted: the repository's tests
(`test_get_current_cycle_after_advance`,
`test_get_current_cycle_multiple_advances`,
`test_get_current_cycle_at_completion`,
`test_get_current_cycle_boundary_values`) advance freshly created
groups that are still `Forming` and observe each call incrementing
`current_cycle`, and §8's concrete scenarios A and B do the same. -/
def advanceCycle (g : Group) : Except StellarSaveError (PayoutRecord × Group) :=
  if g.currentCycle = g.maxMembers then
    .error .AlreadyComplete
  else
    let len := g.members.length
    let record : PayoutRecord :=
      { recipient := g.members.getD (g.currentCycle % len) 0,
        amount := g.contributionAmount * len,
        cycle := g.currentCycle }
    let next := g.currentCycle + 1
    .ok (record,
      { g with currentCycle := next,
               status := if next = g.maxMembers then .Completed else g.status })

/-- `k` consecutive `advance_cycle` calls, stopping at the first error
(mirrors the straight-line call sequences in the tests of `lib.rs`). -/
def advanceN : Group → Nat → Except StellarSaveError Group
  | g, 0 => .ok g
  | g, k + 1 =>
    match g.advanceCycle with
    | .ok (_, g') => advanceN g' k
    | .error e => .error e

end Group

/-- Modelled from the spec (§4.4 `storage` module, absent from the
source tree except the `StorageKeyBuilder::group_data(group_id)` call in
`lib.rs`): discriminant-tagged composite keys, collision-free across
entity kinds by construction. -/
inductive StorageKey where
  | groupData (groupId : Nat)
  | contribution (groupId : Nat) (cycle : Nat) (member : Nat)
  | payout (groupId : Nat) (cycle : Nat)
deriving DecidableEq, Repr

/-- A stored value: the persistent store is heterogeneous, keyed by
`StorageKey`. -/
inductive StoredVal where
  | group (g : Group)
  | contrib (r : ContributionRecord)
  | payoutRec (r : PayoutRecord)
deriving DecidableEq, Repr

/-- The persistent key-value store (§9 of the spec: explicit store
passed into every operation). -/
def Store : Type := StorageKey → Option StoredVal

/-- Point update of the store. -/
def Store.set (s : Store) (k : StorageKey) (v : StoredVal) : Store :=
  fun k' => if k' = k then some v else s k'

/-- The empty store. -/
def Store.empty : Store := fun _ => none

/-- Embedding of `StellarSaveContract::get_current_cycle`
(`src/contracts/stellar-save/src/lib.rs`, lines 57-67): loads the group
at `StorageKeyBuilder::group_data(group_id)` from persistent storage,
returns `GroupNotFound` if absent, else the group's `current_cycle`.
The function only reads, so the store is returned unchanged. -/
def getCurrentCycle (store : Store) (groupId : Nat) :
    Store × Except StellarSaveError Nat :=
  match store (.groupData groupId) with
  | some (.group g) => (store, .ok g.currentCycle)
  | _ => (store, .error .GroupNotFound)

/-- Modelled from the spec (§4.2 `record_contribution` / §6 `contribute`,
module `contribution` and its caller absent from the source tree):
fails with `InvalidStatus` unless `status == Active`, `NotMember` if the
member is not in `members`, `WrongAmount` if `amount`differs from
`contribution_amount`, `DuplicateContribution` if a record already
exists at `(group_id, current_cycle, member)`; on success persists the
record (with `paid = true`) at that key.  On any error the store is
returned unchanged (§7: errors are pure values, no partial mutation). -/
def contribute (store : Store) (g : Group) (member amount timestamp : Nat) :
    Store × Except StellarSaveError ContributionRecord :=
  if g.status ≠ Status.Active then
    (store, .error .InvalidStatus)
  else if member ∉ g.members then
    (store, .error .NotMember)
  else if amount ≠ g.contributionAmount then
    (store, .error .WrongAmount)
  else
    match store (.contribution g.id g.currentCycle member) with
    | some _ => (store, .error .DuplicateContribution)
    | none =>
      let record : ContributionRecord :=
        { amount := amount, timestamp := timestamp, paid := true }
      (store.set (.contribution g.id g.currentCycle member) (.contrib record),
       .ok record)

/-! ## Concrete instances used by witnesses and counterexamples -/

/-- The group produced by `Group::new(1, creator, 10, 100, 2, 0)` with
creator modelled as principal `7` (boundary case `max_members = 2`, as
in `test_get_current_cycle_boundary_values`). -/
def gW : Group :=
  { id := 1, creator := 7, contributionAmount := 10, cycleDurationSeconds := 100,
    maxMembers := 2, createdAt := 0, currentCycle := 0, status := .Forming,
    members := [7] }

/-- The group produced by
`Group::new(1, creator, 10_000_000, 604800, 5, 1234567890)` with creator
modelled as principal `7` (the configuration used throughout the tests
in `lib.rs`). -/
def gW5 : Group :=
  { id := 1, creator := 7, contributionAmount := 10000000,
    cycleDurationSeconds := 604800, maxMembers := 5, createdAt := 1234567890,
    currentCycle := 0, status := .Forming, members := [7] }

/-- A completed group: `current_cycle == max_members`. -/
def gDone : Group :=
  { gW5 with currentCycle := 5, status := .Completed }

/-- A fully-joined active group with two members, mid-rotation. -/
def gFull : Group :=
  { id := 2, creator := 7, contributionAmount := 10, cycleDurationSeconds := 100,
    maxMembers := 2, createdAt := 0, currentCycle := 1, status := .Active,
    members := [7, 8] }

/-- A store holding `gW5` under its group-data key. -/
def storeW : Store :=
  Store.empty.set (.groupData 1) (.group gW5)

/-! ## Helper lemmas -/

/-- Fields of a group freshly returned by `Group.new`. -/
theorem new_ok_fields {id creator amt dur m t : Nat} {g : Group}
    (h : Group.new id creator amt dur m t = .ok g) :
    g.currentCycle = 0 ∧ g.maxMembers = m ∧ g.status = Status.Forming ∧
    g.members = [creator] ∧ g.contributionAmount = amt := by
  unfold Group.new at h
  split at h
  · exact absurd h (by simp)
  · injection h with h
    subst h
    exact ⟨rfl, rfl, rfl, rfl, rfl⟩

/-- As long as `current_cycle + k` stays within `max_members`, `k`
consecutive `advance_cycle` calls all succeed and add exactly `k` to
`current_cycle`, preserving the configuration fields. -/
theorem advanceN_spec (k : Nat) :
    ∀ g : Group, g.currentCycle + k ≤ g.maxMembers →
    ∃ g', Group.advanceN g k = .ok g' ∧
      g'.currentCycle = g.currentCycle + k ∧ g'.maxMembers = g.maxMembers ∧
      g'.members = g.members ∧ g'.contributionAmount = g.contributionAmount := by
  induction k with
  | zero => exact fun g _ => ⟨g, rfl, rfl, rfl, rfl, rfl⟩
  | succ k ih =>
    intro g h
    have hne : ¬ g.currentCycle = g.maxMembers := by omega
    have hstep : Group.advanceN g (k + 1) =
        Group.advanceN
          { g with
              currentCycle := g.currentCycle + 1
              status := (if g.currentCycle + 1 = g.maxMembers then Status.Completed
                         else g.status) } k := by
      simp only [Group.advanceN, Group.advanceCycle, if_neg hne]
    rw [hstep]
    obtain ⟨g', hrun, hc, hm, hmem, hamt⟩ :=
      ih { g with
             currentCycle := g.currentCycle + 1
             status := (if g.currentCycle + 1 = g.maxMembers then Status.Completed
                        else g.status) }
         (show g.currentCycle + 1 + k ≤ g.maxMembers by omega)
    have hc' : g'.currentCycle = g.currentCycle + 1 + k := hc
    exact ⟨g', hrun, by omega, hm, hmem, hamt⟩

/-- Splitting a run of `advance_cycle` calls. -/
theorem advanceN_add (a b : Nat) :
    ∀ g : Group, Group.advanceN g (a + b) =
      match Group.advanceN g a with
      | .ok g' => Group.advanceN g' b
      | .error e => .error e := by
  induction a with
  | zero => intro g; simp [Group.advanceN]
  | succ a ih =>
    intro g
    have hrw : a + 1 + b = (a + b) + 1 := by omega
    rw [hrw]
    simp only [Group.advanceN]
    cases hg : g.advanceCycle with
    | ok p => exact ih p.2
    | error e => rfl

/-! ## Claim theorems -/

/-- C2: for every store and group id, `get_current_cycle` returns
`GroupNotFound` when no group with that id exists in storage, and
otherwise returns exactly the stored group's `current_cycle` field
without error. -/
theorem get_current_cycle_lookup (store : Store) (groupId : Nat) :
    (store (.groupData groupId) = none →
      (getCurrentCycle store groupId).2 = .error .GroupNotFound) ∧
    (∀ g : Group, store (.groupData groupId) = some (.group g) →
      (getCurrentCycle store groupId).2 = .ok g.currentCycle) := by
  constructor
  · intro h
    simp [getCurrentCycle, h]
  · intro g h
    simp [getCurrentCycle, h]

/-- Witness for C2: on the empty store the lookup fails with
`GroupNotFound`; on a store holding `gW5` under group id 1 it returns
that group's `current_cycle`, namely 0. -/
theorem get_current_cycle_lookup_witness :
    (getCurrentCycle Store.empty 1).2 = .error .GroupNotFound ∧
    (getCurrentCycle storeW 1).2 = .ok 0 :=
  ⟨(get_current_cycle_lookup Store.empty 1).1 rfl,
   (get_current_cycle_lookup storeW 1).2 gW5 rfl⟩

/-- C9: `get_current_cycle` never modifies persisted state: for every
store and group id, the store component of the result is the input
store, whether the call returns a value or `GroupNotFound`. -/
theorem get_current_cycle_preserves_store (store : Store) (groupId : Nat) :
    (getCurrentCycle store groupId).1 = store := by
  unfold getCurrentCycle
  cases h : store (.groupData groupId) with
  | none => rfl
  | some v => cases v <;> rfl

/-- C4: for every valid configuration (`max_members >= 2`,
`contribution_amount > 0`, `cycle_duration_seconds > 0`), `Group::new`
returns a group with `current_cycle == 0` and `status == Forming`. -/
theorem new_valid_initial_state (id creator amt dur m t : Nat)
    (hm : 2 ≤ m) (hamt : amt ≠ 0) (hdur : dur ≠ 0) :
    ∃ g, Group.new id creator amt dur m t = .ok g ∧
      g.currentCycle = 0 ∧ g.status = Status.Forming := by
  have hcond : ¬ (m < 2 ∨ amt = 0 ∨ dur = 0) := by omega
  simp only [Group.new, if_neg hcond]
  exact ⟨_, rfl, rfl, rfl⟩

/-- Witness for C4: the configuration used by
`test_get_current_cycle_returns_correct_value`. -/
theorem new_valid_initial_state_witness :
    ∃ g, Group.new 1 7 10000000 604800 5 1234567890 = .ok g ∧
      g.currentCycle = 0 ∧ g.status = Status.Forming :=
  new_valid_initial_state 1 7 10000000 604800 5 1234567890
    (by omega) (by omega) (by omega)

/-- C5: `Group::new` fails with `InvalidConfiguration` whenever
`max_members < 2` or `contribution_amount == 0` or
`cycle_duration_seconds == 0`, and succeeds for every configuration
satisfying all three constraints. -/
theorem new_validation (id creator amt dur m t : Nat) :
    ((m < 2 ∨ amt = 0 ∨ dur = 0) →
      Group.new id creator amt dur m t = .error .InvalidConfiguration) ∧
    (2 ≤ m → amt ≠ 0 → dur ≠ 0 →
      ∃ g, Group.new id creator amt dur m t = .ok g) := by
  constructor
  · intro h
    simp only [Group.new, if_pos h]
  · intro hm hamt hdur
    have hcond : ¬ (m < 2 ∨ amt = 0 ∨ dur = 0) := by omega
    simp only [Group.new, if_neg hcond]
    exact ⟨_, rfl⟩

/-- Witness for C5: `max_members = 1` is rejected with
`InvalidConfiguration`; the boundary configuration `max_members = 2`
(as in `test_get_current_cycle_boundary_values`) is accepted. -/
theorem new_validation_witness :
    Group.new 1 7 10 100 1 0 = .error .InvalidConfiguration ∧
    ∃ g, Group.new 1 7 10 100 2 0 = .ok g :=
  ⟨(new_validation 1 7 10 100 1 0).1 (by omega),
   (new_validation 1 7 10 100 2 0).2 (by omega) (by omega) (by omega)⟩

/-- C6: `can_transition` returns true exactly on the four edges
Forming→Active, Forming→Cancelled, Active→Cancelled, Active→Completed;
in particular it is false on every self-loop and on every pair whose
source is `Completed` or `Cancelled`. -/
theorem can_transition_table (f t s : Status) :
    (canTransition f t = true ↔
      ((f = .Forming ∧ t = .Active) ∨ (f = .Forming ∧ t = .Cancelled) ∨
       (f = .Active ∧ t = .Cancelled) ∨ (f = .Active ∧ t = .Completed))) ∧
    canTransition s s = false ∧
    canTransition .Completed t = false ∧
    canTransition .Cancelled t = false := by
  cases f <;> cases t <;> cases s <;> decide

/-- Witness for C6: the table at the concrete pair Forming→Active, and
the closures at Completed and Active self-loop. -/
theorem can_transition_table_witness :
    canTransition .Forming .Active = true ∧
    canTransition .Active .Active = false ∧
    canTransition .Completed .Forming = false :=
  ⟨(can_transition_table .Forming .Active .Active).1.mpr (.inl ⟨rfl, rfl⟩),
   (can_transition_table .Forming .Forming .Active).2.1,
   (can_transition_table .Completed .Forming .Active).2.2.1⟩

/-- C1: for every group created with `max_members = m` (`m >= 2`),
`advance_cycle` called exactly `m` times yields `current_cycle == m` and
`is_complete() == true`, and an `(m+1)`-th call fails with
`AlreadyComplete`. -/
theorem advance_cycle_completion (id creator amt dur m t : Nat) (g : Group)
    (hm : 2 ≤ m) (hnew : Group.new id creator amt dur m t = .ok g) :
    (∃ g', Group.advanceN g m = .ok g' ∧ g'.currentCycle = m ∧
       g'.isComplete = true) ∧
    Group.advanceN g (m + 1) = .error .AlreadyComplete := by
  obtain ⟨hc0, hmax, -, -, -⟩ := new_ok_fields hnew
  obtain ⟨g', hrun, hc, hmm, -, -⟩ := advanceN_spec m g (by omega)
  have hcomplete : g'.isComplete = true := by
    rw [Group.isComplete, beq_iff_eq]
    omega
  refine ⟨⟨g', hrun, by omega, hcomplete⟩, ?_⟩
  rw [advanceN_add m 1 g, hrun]
  have hend : g'.currentCycle = g'.maxMembers := by omega
  simp [Group.advanceN, Group.advanceCycle, if_pos hend]

/-- Witness for C1: the boundary group of
`test_get_current_cycle_boundary_values` (`max_members = 2`): two
advances complete it, the third fails with `AlreadyComplete`. -/
theorem advance_cycle_completion_witness :
    (∃ g', Group.advanceN gW 2 = .ok g' ∧ g'.currentCycle = 2 ∧
       g'.isComplete = true) ∧
    Group.advanceN gW 3 = .error .AlreadyComplete :=
  advance_cycle_completion 1 7 10 100 2 0 gW (by omega) rfl

/-- C3 counterexample: a freshly created group whose status is still
`Forming` (not `Active`) is advanced successfully — `advance_cycle`
returns a `PayoutRecord` instead of failing with `InvalidStatus`, as the
repository's own tests require
(`test_get_current_cycle_after_advance` advances a fresh group and
observes `current_cycle == 1`). -/
theorem advance_cycle_no_status_check :
    gW5.status ≠ Status.Active ∧
    gW5.advanceCycle =
      .ok (⟨7, 10000000, 0⟩, { gW5 with currentCycle := 1 }) :=
  ⟨by decide, rfl⟩

/-- C3 amended: `advance_cycle` fails with `AlreadyComplete` whenever
`current_cycle == max_members`, and returns a `PayoutRecord` whenever
`current_cycle < max_members`, regardless of the group's status (the
code performs no `InvalidStatus` check). -/
theorem advance_cycle_guards (g : Group) :
    (g.currentCycle = g.maxMembers →
      g.advanceCycle = .error .AlreadyComplete) ∧
    (g.currentCycle < g.maxMembers →
      ∃ r g', g.advanceCycle = .ok (r, g')) := by
  constructor
  · intro h
    simp only [Group.advanceCycle, if_pos h]
  · intro h
    have hne : ¬ g.currentCycle = g.maxMembers := by omega
    simp only [Group.advanceCycle, if_neg hne]
    exact ⟨_, _, rfl⟩

/-- Witness for C3 amended: the completed group `gDone` is rejected with
`AlreadyComplete`; the fresh `Forming` group `gW5` advances. -/
theorem advance_cycle_guards_witness :
    gDone.advanceCycle = .error .AlreadyComplete ∧
    ∃ r g', gW5.advanceCycle = .ok (r, g') :=
  ⟨(advance_cycle_guards gDone).1 rfl,
   (advance_cycle_guards gW5).2 (by decide)⟩

/-- C7: for every fully-joined group (`members.len() == max_members`)
at cycle `c < max_members`, `advance_cycle` succeeds and produces a
`PayoutRecord` whose recipient is `members[c % members.len()]` and whose
amount is `contribution_amount * members.len()`.  Determinism with
respect to unrelated operations holds because `advance_cycle` is a pure
function of the group state alone. -/
theorem advance_cycle_rotation (g : Group) (c : Nat)
    (hfull : g.members.length = g.maxMembers)
    (hc : g.currentCycle = c) (hlt : c < g.maxMembers) :
    ∃ g', g.advanceCycle =
      .ok (⟨g.members.getD (c % g.members.length) 0,
            g.contributionAmount * g.members.length, c⟩, g') := by
  have hne : ¬ c = g.maxMembers := by omega
  simp only [Group.advanceCycle, hc, if_neg hne]
  exact ⟨_, rfl⟩

/-- Witness for C7: the fully-joined two-member group `gFull` at cycle 1
pays `members[1 % 2] = 8` the pool `10 * 2 = 20`. -/
theorem advance_cycle_rotation_witness :
    ∃ g', gFull.advanceCycle = .ok (⟨8, 20, 1⟩, g') :=
  advance_cycle_rotation gFull 1 rfl rfl (by decide)

/-- C8: a first `contribute` for a key `(group, cycle, member)` absent
from the store succeeds and persists a record carrying the call's amount
and timestamp; a second call for the identical key fails with
`DuplicateContribution` and leaves the store — in particular the stored
record's amount and timestamp — unchanged. -/
theorem contribute_duplicate_rejected (store : Store) (g : Group)
    (member amount ts1 amount2 ts2 : Nat)
    (hst : g.status = Status.Active)
    (hmem : member ∈ g.members)
    (hamt : amount = g.contributionAmount)
    (hamt2 : amount2 = g.contributionAmount)
    (hnone : store (.contribution g.id g.currentCycle member) = none) :
    ∃ store',
      contribute store g member amount ts1 =
        (store', .ok { amount := amount, timestamp := ts1, paid := true }) ∧
      store' (.contribution g.id g.currentCycle member) =
        some (.contrib { amount := amount, timestamp := ts1, paid := true }) ∧
      contribute store' g member amount2 ts2 =
        (store', .error .DuplicateContribution) := by
  have h1 : ¬ (g.status ≠ Status.Active) := by simp [hst]
  have h2 : ¬ (member ∉ g.members) := by simp [hmem]
  have h3 : ¬ (amount ≠ g.contributionAmount) := by simp [hamt]
  have h4 : ¬ (amount2 ≠ g.contributionAmount) := by simp [hamt2]
  have hset : Store.set store (.contribution g.id g.currentCycle member)
        (.contrib { amount := amount, timestamp := ts1, paid := true })
        (.contribution g.id g.currentCycle member) =
      some (.contrib { amount := amount, timestamp := ts1, paid := true }) := by
    simp [Store.set]
  refine ⟨Store.set store (.contribution g.id g.currentCycle member)
    (.contrib { amount := amount, timestamp := ts1, paid := true }), ?_, hset, ?_⟩
  · simp only [contribute, if_neg h1, if_neg h2, if_neg h3, hnone]
  · simp only [contribute, if_neg h1, if_neg h2, if_neg h4, hset]

/-- Witness for C8: on the empty store, member 7 of the active group
`gFull` contributes amount 10 at time 11; repeating the call at time 22
is rejected with `DuplicateContribution` and the store is unchanged. -/
theorem contribute_duplicate_rejected_witness :
    ∃ store',
      contribute Store.empty gFull 7 10 11 =
        (store', .ok { amount := 10, timestamp := 11, paid := true }) ∧
      store' (.contribution gFull.id gFull.currentCycle 7) =
        some (.contrib { amount := 10, timestamp := 11, paid := true }) ∧
      contribute store' gFull 7 10 22 =
        (store', .error .DuplicateContribution) :=
  contribute_duplicate_rejected Store.empty gFull 7 10 11 10 22
    rfl (by decide) rfl rfl rfl

/-- C10 counterexample: on the fresh `max_members = 2` group `gW`, the
third consecutive `advance_cycle` call does not increment
`current_cycle` to 3 — it fails with `AlreadyComplete` (the group
completed after two advances), so the unrestricted claim "after `k`
consecutive calls on a new group, `current_cycle == k`" is false at
`k = 3`. -/
theorem advanceN_overrun :
    Group.new 1 7 10 100 2 0 = .ok gW ∧
    Group.advanceN gW 3 = .error .AlreadyComplete :=
  ⟨rfl, rfl⟩

/-- C10 amended: each `advance_cycle` call increments `current_cycle` by
exactly one as long as `current_cycle < max_members`, even on a freshly
created group whose member list holds only the creator and whose status
has never reached `Active`: after `k ≤ max_members` consecutive calls on
a new group, `current_cycle == k`. -/
theorem advanceN_within_bound (id creator amt dur m t k : Nat) (g : Group)
    (hnew : Group.new id creator amt dur m t = .ok g) (hk : k ≤ m) :
    ∃ g', Group.advanceN g k = .ok g' ∧ g'.currentCycle = k := by
  obtain ⟨hc0, hmax, -, -, -⟩ := new_ok_fields hnew
  obtain ⟨g', hrun, hc, -, -, -⟩ := advanceN_spec k g (by omega)
  exact ⟨g', hrun, by omega⟩

/-- Witness for C10 amended: the scenario of
`test_get_current_cycle_multiple_advances` — three advances on the
fresh `max_members = 5` group reach `current_cycle == 3`. -/
theorem advanceN_within_bound_witness :
    ∃ g', Group.advanceN gW5 3 = .ok g' ∧ g'.currentCycle = 3 :=
  advanceN_within_bound 1 7 10000000 604800 5 1234567890 3 gW5 rfl (by omega)

end StellarSave
